import Mathlib

/-!
Verification of the TTS bridging layer of the NagaAgent voice subsystem.

The development shallowly embeds three Python modules:
- voice/output/tts_handler.py : request normalization (voice, model, format,
  speed), provider request construction, and the temporary-file lifecycle of
  whole-file synthesis;
- voice/tts_wrapper.py : the async execution bridge (TTSWrapper), its
  swallow-all-errors fallback and its startup handshake;
- voice/output/server.py : the POST /v1/audio/speech handler.

Machine floats of the source are embedded as rationals; Python string
falsiness (the empty string is falsy in `a or b`) is embedded explicitly;
the remote provider call and the asyncio future are embedded as an explicit
outcome value (success, provider error, timeout, other exception); the file
system is an explicit state threaded through the functions that touch it.
-/

namespace NagaTTS

/-- Python exceptions that cross the boundaries the spec talks about:
the asyncio wait timeout, an OpenAIError carrying an optional status code
and a message, a ValueError from a failed numeric conversion, and any
other exception. -/
inductive PyExn where
  | timeout
  | openai (code : Option Nat) (msg : String)
  | valueError (msg : String)
  | other (msg : String)
deriving DecidableEq

/-- Snapshot of the configuration fields the core reads
(config.tts.default_voice, default_format, default_speed, and the optional
config.tts.model read via getattr with None default). -/
structure TTSConfig where
  default_voice : String
  default_format : String
  default_speed : ℚ
  model : Option String
deriving DecidableEq

/-- A caller-supplied speed as the handler sees it: absent (None),
a value that float() converts, or a value on which float() raises
TypeError or ValueError. -/
inductive PySpeed where
  | none
  | numeric (q : ℚ)
  | nonNumeric
deriving DecidableEq

/-- Python `a or b` on an optional string: None and the empty string are
falsy and fall through to the right operand. -/
def pyStrOr (a : Option String) (b : String) : String :=
  match a with
  | Option.some s => if s = "" then b else s
  | Option.none => b

/-- The static voice catalog _OPENAI_TTS_VOICES of tts_handler.py:
(id, display name, language, gender). -/
def OPENAI_TTS_VOICES : List (String × String × String × String) :=
  [("alloy", "Alloy", "en", "neutral"),
   ("ash", "Ash", "en", "male"),
   ("ballad", "Ballad", "en", "male"),
   ("coral", "Coral", "en", "female"),
   ("echo", "Echo", "en", "male"),
   ("fable", "Fable", "en", "female"),
   ("marin", "Marin", "en", "female"),
   ("nova", "Nova", "en", "female"),
   ("onyx", "Onyx", "en", "male"),
   ("sage", "Sage", "en", "neutral"),
   ("shimmer", "Shimmer", "en", "female"),
   ("verse", "Verse", "en", "male"),
   ("cedar", "Cedar", "en", "neutral")]

/-- The id set _OPENAI_VOICE_IDS derived from the catalog. -/
def OPENAI_VOICE_IDS : List String := OPENAI_TTS_VOICES.map (fun v => v.1)

/-- The static model catalog _OPENAI_TTS_MODELS: (id, display name). -/
def OPENAI_TTS_MODELS : List (String × String) :=
  [("gpt-4o-mini-tts", "GPT-4o mini TTS"),
   ("tts-1", "Text-to-Speech v1"),
   ("tts-1-hd", "Text-to-Speech v1 HD")]

/-- tts_handler._resolve_model: `model or configured or "gpt-4o-mini-tts"`
with Python falsiness; no check against OPENAI_TTS_MODELS. -/
def resolve_model (cfg : TTSConfig) (model : Option String) : String :=
  pyStrOr model (pyStrOr cfg.model "gpt-4o-mini-tts")

/-- tts_handler._resolve_voice: candidate is
`voice or config.tts.default_voice or "alloy"`; a candidate outside
OPENAI_VOICE_IDS becomes "alloy". -/
def resolve_voice (cfg : TTSConfig) (voice : Option String) : String :=
  let candidate := pyStrOr voice (pyStrOr (Option.some cfg.default_voice) "alloy")
  if OPENAI_VOICE_IDS.contains candidate then candidate else "alloy"

/-- tts_handler._resolve_format:
`response_format or config.tts.default_format or "mp3"`. -/
def resolve_format (cfg : TTSConfig) (response_format : Option String) : String :=
  pyStrOr response_format (pyStrOr (Option.some cfg.default_format) "mp3")

/-- tts_handler._MIN_SPEAKING_RATE = 0.25. -/
def MIN_SPEAKING_RATE : ℚ := 1/4

/-- tts_handler._MAX_SPEAKING_RATE = 4.0. -/
def MAX_SPEAKING_RATE : ℚ := 4

/-- tts_handler._clamp_speaking_rate: float(speed) when speed is not None,
float(config.tts.default_speed) when it is; TypeError/ValueError from the
conversion also selects the configured default; the result is
max(_MIN_SPEAKING_RATE, min(_MAX_SPEAKING_RATE, value)). -/
def clamp_speaking_rate (cfg : TTSConfig) (speed : PySpeed) : ℚ :=
  let value : ℚ :=
    match speed with
    | PySpeed.numeric q => q
    | PySpeed.none => cfg.default_speed
    | PySpeed.nonNumeric => cfg.default_speed
  max MIN_SPEAKING_RATE (min MAX_SPEAKING_RATE value)

/-- A JSON-ish value in the provider payload. -/
inductive JVal where
  | str (s : String)
  | num (q : ℚ)
deriving DecidableEq

/-- tts_handler._prepare_request: the payload dict holds exactly input,
model, voice and response_format; the extra body is
\x7b"voice_settings": \x7b"speaking_rate": clamped speed\x7d\x7d. -/
def prepare_request (cfg : TTSConfig) (text : String)
    (voice response_format : Option String) (speed : PySpeed)
    (model : Option String) :
    List (String × JVal) × List (String × List (String × ℚ)) :=
  ([("input", JVal.str text),
    ("model", JVal.str (resolve_model cfg model)),
    ("voice", JVal.str (resolve_voice cfg voice)),
    ("response_format", JVal.str (resolve_format cfg response_format))],
   [("voice_settings", [("speaking_rate", clamp_speaking_rate cfg speed)])])

/-- Request built by tts_handler._generate_audio (whole-file path): its first
line delegates to _prepare_request. -/
def generate_audio_request (cfg : TTSConfig) (text : String)
    (voice response_format : Option String) (speed : PySpeed)
    (model : Option String) :
    List (String × JVal) × List (String × List (String × ℚ)) :=
  prepare_request cfg text voice response_format speed model

/-- Request built by tts_handler._generate_audio_stream (streaming path):
its first line delegates to _prepare_request as well. -/
def generate_audio_stream_request (cfg : TTSConfig) (text : String)
    (voice response_format : Option String) (speed : PySpeed)
    (model : Option String) :
    List (String × JVal) × List (String × List (String × ℚ)) :=
  prepare_request cfg text voice response_format speed model

/-- Keys of a payload dict, in insertion order. -/
def payloadKeys (payload : List (String × JVal)) : List String :=
  payload.map (fun kv => kv.1)

/-- A temporary file path as tempfile.NamedTemporaryFile yields it: a unique
numeric identity plus the suffix it was created with. -/
structure TempPath where
  id : Nat
  suffix : String
deriving DecidableEq

/-- The file system as the lifecycle manager observes it: a supply counter
for fresh names and the content (if any) stored under each identity. -/
structure FS where
  next : Nat
  files : Nat → Option String

/-- An FS is well formed when every identity at or beyond the supply counter
is unused; tempfile guarantees a fresh name on each allocation. -/
def FS.wf (fs : FS) : Prop := ∀ i, fs.next ≤ i → fs.files i = none

/-- tempfile.NamedTemporaryFile(delete=False, suffix=suffix) followed by
close(): allocates a fresh path holding the empty content. -/
def allocTemp (fs : FS) (suffix : String) : FS × TempPath :=
  (⟨fs.next + 1, fun i => if i = fs.next then some "" else fs.files i⟩,
   ⟨fs.next, suffix⟩)

/-- Overwrite the content stored under an identity. -/
def setFile (fs : FS) (k : Nat) (content : String) : FS :=
  ⟨fs.next, fun i => if i = k then some content else fs.files i⟩

/-- Path(p).unlink(missing_ok=True): removes the file; a missing file is
not an error, the operation is total. -/
def unlink (fs : FS) (k : Nat) : FS :=
  ⟨fs.next, fun i => if i = k then none else fs.files i⟩

/-- Outcome of response.astream_to_file on the allocated path: either the
full content is written, or the write fails at some point leaving the bytes
written so far, with the exception that interrupted it. -/
inductive WriteOutcome where
  | ok (content : String)
  | fail (part : String) (e : PyExn)

/-- tts_handler._generate_audio: build the request, call the provider
(its outcome is the Except argument: an exception there propagates before
any file is allocated), allocate the temp file with the resolved format as
suffix, then stream into it; on a write failure the path is unlinked with
missing_ok=True and the originating exception is re-raised unchanged. -/
def generate_audio (fs : FS) (cfg : TTSConfig) (text : String)
    (voice response_format : Option String) (speed : PySpeed)
    (model : Option String) (provider : Except PyExn WriteOutcome) :
    FS × Except PyExn TempPath :=
  match provider with
  | Except.error e => (fs, Except.error e)
  | Except.ok write =>
    let suffix := "." ++ resolve_format cfg response_format
    let alloc := allocTemp fs suffix
    match write with
    | WriteOutcome.ok content =>
      (setFile alloc.1 alloc.2.id content, Except.ok alloc.2)
    | WriteOutcome.fail part e =>
      (unlink (setFile alloc.1 alloc.2.id part) alloc.2.id, Except.error e)

/-- TTSWrapper._create_silent_file: allocate a fresh empty file with suffix
f".\x7bresponse_format\x7d" and return its path. -/
def create_silent_file (fs : FS) (response_format : String) : FS × TempPath :=
  allocTemp fs ("." ++ response_format)

/-- TTSWrapper.generate_speech_safe: submit the coroutine to the loop and
wait on the future with timeout=60. The Except PyExn TempPath argument is
that wait's outcome: success yields the synthesized path, and any exception
(timeout after the 60-unit wait, provider error, anything else) is caught
by the bare `except Exception` and replaced by a fresh silent file. The
Except result type records what the call itself raises to its caller. -/
def generate_speech_safe (fs : FS) (response_format : String)
    (outcome : Except PyExn TempPath) : Except PyExn (FS × TempPath) :=
  match outcome with
  | Except.ok p => Except.ok (fs, p)
  | Except.error _ => Except.ok (create_silent_file fs response_format)

/-- A Python value in a parsed JSON request body. -/
inductive PyVal where
  | str (s : String)
  | num (q : ℚ)
deriving DecidableEq

/-- A parsed JSON object body, as a key/value list with first-key lookup. -/
abbrev Body := List (String × PyVal)

/-- Dict key lookup, data[k] or data.get(k). -/
def lookupKey (d : Body) (k : String) : Option PyVal :=
  match d.find? (fun kv => kv.1 == k) with
  | Option.some kv => some kv.2
  | Option.none => none

/-- Python truthiness test `not data` on the parsed body: None and the
empty object are falsy. -/
def bodyFalsy : Option Body → Bool
  | Option.none => true
  | Option.some d => d.isEmpty

/-- The membership test `'input' in data` (false when there is no body). -/
def hasInput : Option Body → Bool
  | Option.none => false
  | Option.some d => (lookupKey d "input").isSome

/-- Modelled from the spec: the fixed format-to-MIME lookup table
AUDIO_FORMAT_MIME_TYPES lives in voice/output/utils.py, which is not among
the provided sources; per the spec the success Content-Type comes from a
fixed table defaulting to audio/mpeg for unrecognized formats. -/
def AUDIO_FORMAT_MIME_TYPES : List (String × String) :=
  [("mp3", "audio/mpeg"), ("opus", "audio/opus"), ("aac", "audio/aac"),
   ("flac", "audio/flac"), ("wav", "audio/wav"), ("pcm", "audio/pcm")]

/-- AUDIO_FORMAT_MIME_TYPES.get(response_format, "audio/mpeg"). -/
def mimeFor (fmt : String) : String :=
  match AUDIO_FORMAT_MIME_TYPES.find? (fun kv => kv.1 == fmt) with
  | Option.some kv => kv.2
  | Option.none => "audio/mpeg"

/-- The conversion float(x) applied by the handler to the speed field:
numbers convert to themselves; a string is treated as non-numeric here
(the claims settled below never reach this case with a string, so the
parse of numeric string literals is not modelled). -/
def pyFloat : PyVal → Option ℚ
  | PyVal.num q => some q
  | PyVal.str _ => none

/-- The exact 400 error message of server.text_to_speech. -/
def MISSING_INPUT_ERROR : String := "Missing \x27input\x27 in request body"

/-- An HTTP response of the /v1/audio/speech handler: a JSON error object
\x7b"error": e\x7d with a status, a JSON error object with a message field
(the OpenAIError branch), or a binary file attachment. -/
inductive TTSResp where
  | errJson (status : Nat) (error : String)
  | errJsonMsg (status : Nat) (error : String) (msg : String)
  | fileAttachment (mime : String) (download_name : String) (path : String)
deriving DecidableEq

/-- The local `response_format = data.get('response_format',
config.tts.default_format)` of the handler (a non-string value is read as
the default here; the settled claims never exercise that case). -/
def body_format (cfg : TTSConfig) (d : Body) : String :=
  match lookupKey d "response_format" with
  | Option.some (PyVal.str s) => s
  | _ => cfg.default_format

/-- The local `data.get('speed', config.tts.default_speed)` of the
handler, before the float() conversion. -/
def body_speed (cfg : TTSConfig) (d : Body) : PyVal :=
  (lookupKey d "speed").getD (PyVal.num cfg.default_speed)

/-- server.text_to_speech: reject with 400 when `not data or 'input' not in
data`; otherwise read the optional fields with config defaults, convert
speed with float() (a ValueError falls to the generic 500 handler), and
run generate_speech, whose outcome is the gen argument: an OpenAIError
maps to (status_code or 502) with an \x7b"error","message"\x7d body, any
other exception to the opaque 500, and success to a file attachment named
speech.<format> with the MIME type looked up from the format. -/
def text_to_speech (cfg : TTSConfig) (gen : Except PyExn String)
    (data : Option Body) : TTSResp :=
  if bodyFalsy data || !hasInput data then
    TTSResp.errJson 400 MISSING_INPUT_ERROR
  else
    match pyFloat (body_speed cfg (data.getD [])) with
    | Option.none => TTSResp.errJson 500 "An internal server error occurred."
    | Option.some _ =>
      match gen with
      | Except.ok path =>
        TTSResp.fileAttachment (mimeFor (body_format cfg (data.getD [])))
          ("speech." ++ body_format cfg (data.getD [])) path
      | Except.error (PyExn.openai code msg) =>
        TTSResp.errJsonMsg (code.getD 502) "OpenAIError" msg
      | Except.error _ =>
        TTSResp.errJson 500 "An internal server error occurred."

/-- Observable state of the bridge startup handshake of
TTSWrapper._start_loop: whether the background thread has created and
published the loop (self._loop is not None), whether run_forever is
processing callbacks, whether _start_loop has returned, and a task ledger
(tasks submitted after start, still queued, and executed). -/
structure BridgeState where
  created : Bool
  running : Bool
  returned : Bool
  submitted : Nat
  queued : Nat
  executed : Nat
deriving DecidableEq

/-- The state before TTSWrapper.__init__ runs. -/
def initBridge : BridgeState :=
  ⟨false, false, false, 0, 0, 0⟩

/-- Atomic events of the startup handshake. createLoop is run_loop
executing `self._loop = asyncio.new_event_loop()`; runForever is
run_forever starting to process callbacks; startReturn is the polling loop
of _start_loop observing `self._loop is not None` and returning; submitTask
is a caller invoking run_coroutine_threadsafe after start returned;
processTasks is the running loop draining its callback queue. -/
inductive BridgeEv where
  | createLoop
  | runForever
  | startReturn
  | submitTask
  | processTasks
deriving DecidableEq

/-- Enabledness of each event in a state. startReturn requires only that
the loop object exists: that is the whole readiness condition the polling
loop of _start_loop checks. -/
def bridgeGuard (s : BridgeState) : BridgeEv → Bool
  | BridgeEv.createLoop => !s.created
  | BridgeEv.runForever => s.created && !s.running
  | BridgeEv.startReturn => s.created && !s.returned
  | BridgeEv.submitTask => s.returned
  | BridgeEv.processTasks => s.running

/-- Effect of each event. run_coroutine_threadsafe enqueues the callback
on the loop whether or not run_forever has begun; the queue is drained
only by the running loop. -/
def bridgeApply (s : BridgeState) : BridgeEv → BridgeState
  | BridgeEv.createLoop =>
    ⟨true, s.running, s.returned, s.submitted, s.queued, s.executed⟩
  | BridgeEv.runForever =>
    ⟨s.created, true, s.returned, s.submitted, s.queued, s.executed⟩
  | BridgeEv.startReturn =>
    ⟨s.created, s.running, true, s.submitted, s.queued, s.executed⟩
  | BridgeEv.submitTask =>
    ⟨s.created, s.running, s.returned, s.submitted + 1, s.queued + 1,
     s.executed⟩
  | BridgeEv.processTasks =>
    ⟨s.created, s.running, s.returned, s.submitted, 0,
     s.executed + s.queued⟩

/-- Run a trace of events from a state; none when some event fires while
not enabled (only enabled interleavings are real executions). -/
def runBridge : BridgeState → List BridgeEv → Option BridgeState
  | s, [] => some s
  | s, e :: es => if bridgeGuard s e then runBridge (bridgeApply s e) es else none

/-- A concrete empty file system for concrete instances. -/
def fs0 : FS := ⟨0, fun _ => none⟩

/-- A concrete configuration: default voice nova, default format mp3,
default speed 1, no configured model. -/
def cfgNova : TTSConfig := ⟨"nova", "mp3", 1, Option.none⟩

/-- A concrete configuration whose config.tts.model is set to tts-1. -/
def cfgWithModel : TTSConfig := ⟨"nova", "mp3", 1, Option.some "tts-1"⟩

/-- Invariant of the startup handshake: a returned start observed a created
loop, and every task submitted so far is still queued or already executed. -/
def bridgeInv (s : BridgeState) : Prop :=
  (s.returned = true → s.created = true) ∧
  s.submitted = s.queued + s.executed

/-- The handshake invariant is preserved along every valid execution. -/
theorem runBridge_inv : ∀ (tr : List BridgeEv) (s0 s : BridgeState),
    bridgeInv s0 → runBridge s0 tr = some s → bridgeInv s := by
  intro tr
  induction tr with
  | nil =>
    intro s0 s h0 hr
    simp [runBridge] at hr
    exact hr ▸ h0
  | cons e es ih =>
    intro s0 s h0 hr
    unfold runBridge at hr
    cases hgb : bridgeGuard s0 e with
    | false =>
      rw [hgb] at hr
      simp at hr
    | true =>
      rw [hgb] at hr
      simp at hr
      refine ih (bridgeApply s0 e) s ?_ hr
      obtain ⟨h1, h2⟩ := h0
      cases e with
      | createLoop => exact ⟨fun _ => rfl, h2⟩
      | runForever => exact ⟨h1, h2⟩
      | startReturn =>
        refine ⟨fun _ => ?_, h2⟩
        simp [bridgeGuard] at hgb
        exact hgb.1
      | submitTask =>
        refine ⟨h1, ?_⟩
        show s0.submitted + 1 = s0.queued + 1 + s0.executed
        omega
      | processTasks =>
        refine ⟨h1, ?_⟩
        show s0.submitted = 0 + (s0.executed + s0.queued)
        omega

/-- C1: when the awaited synthesis outcome is any exception (the timeout
raised after the fixed 60-unit wait on the future included),
generate_speech_safe raises nothing to its caller: it returns ok, carrying
a freshly allocated (unused in the prior file system), existing, empty
placeholder file whose suffix is "." followed by the requested response
format. -/
theorem bridge_fallback_on_error (fs : FS) (response_format : String)
    (e : PyExn) (hwf : FS.wf fs) :
    generate_speech_safe fs response_format (Except.error e) =
      Except.ok (create_silent_file fs response_format) ∧
    fs.files (create_silent_file fs response_format).2.id = none ∧
    (create_silent_file fs response_format).1.files
      (create_silent_file fs response_format).2.id = some "" ∧
    (create_silent_file fs response_format).2.suffix
      = "." ++ response_format := by
  refine ⟨rfl, hwf fs.next (le_refl _), ?_, rfl⟩
  simp [create_silent_file, allocTemp]

/-- C1 witness: the fallback theorem applied to the empty file system,
format mp3 and a timeout exception. -/
theorem bridge_fallback_on_error_witness :
    generate_speech_safe fs0 "mp3" (Except.error PyExn.timeout) =
      Except.ok (create_silent_file fs0 "mp3") ∧
    fs0.files (create_silent_file fs0 "mp3").2.id = none ∧
    (create_silent_file fs0 "mp3").1.files
      (create_silent_file fs0 "mp3").2.id = some "" ∧
    (create_silent_file fs0 "mp3").2.suffix = "." ++ "mp3" :=
  bridge_fallback_on_error fs0 "mp3" PyExn.timeout (fun _ _ => rfl)

/-- C2 counterexample: a provider error (OpenAIError 429) raised during
synthesis does not cross generate_speech_safe: the call returns the silent
placeholder instead of re-raising the error. -/
theorem provider_error_absorbed_counterexample :
    generate_speech_safe fs0 "mp3"
        (Except.error (PyExn.openai (Option.some 429) "rate limited"))
      = Except.ok (create_silent_file fs0 "mp3") ∧
    generate_speech_safe fs0 "mp3"
        (Except.error (PyExn.openai (Option.some 429) "rate limited"))
      ≠ Except.error (PyExn.openai (Option.some 429) "rate limited") :=
  ⟨rfl, fun h => Except.noConfusion h⟩

/-- C2 amended: a ProviderError raised during synthesis is absorbed at the
Bridge boundary like every other exception and converted into the silent
placeholder fallback; provider errors reach HTTP callers only through the
direct generate_speech path of the server, which bypasses the Bridge. -/
theorem provider_error_absorbed (fs : FS) (response_format : String)
    (code : Option Nat) (msg : String) :
    generate_speech_safe fs response_format
        (Except.error (PyExn.openai code msg))
      = Except.ok (create_silent_file fs response_format) := rfl

/-- C3: a numeric speed is clamped to exactly max(1/4, min(4, speed)), so
1/10 maps to 1/4 and 10 to 4; an absent or non-numeric speed uses the
configured default (then clamped); every result lies in [1/4, 4]. -/
theorem clamp_speaking_rate_spec (cfg : TTSConfig) :
    (∀ q : ℚ, clamp_speaking_rate cfg (PySpeed.numeric q)
        = max (1/4) (min 4 q)) ∧
    clamp_speaking_rate cfg (PySpeed.numeric (1/10)) = 1/4 ∧
    clamp_speaking_rate cfg (PySpeed.numeric 10) = 4 ∧
    clamp_speaking_rate cfg PySpeed.none
      = max (1/4) (min 4 cfg.default_speed) ∧
    clamp_speaking_rate cfg PySpeed.nonNumeric
      = max (1/4) (min 4 cfg.default_speed) ∧
    (∀ s : PySpeed, 1/4 ≤ clamp_speaking_rate cfg s ∧
        clamp_speaking_rate cfg s ≤ 4) := by
  refine ⟨fun q => rfl, ?_, ?_, rfl, rfl, ?_⟩
  · norm_num [clamp_speaking_rate, MIN_SPEAKING_RATE, MAX_SPEAKING_RATE]
  · norm_num [clamp_speaking_rate, MIN_SPEAKING_RATE, MAX_SPEAKING_RATE]
  · intro s
    cases s <;>
      simp only [clamp_speaking_rate, MIN_SPEAKING_RATE,
        MAX_SPEAKING_RATE] <;>
      exact ⟨le_max_left _ _, max_le (by norm_num) (min_le_left _ _)⟩

/-- C4 counterexample: with configured default voice nova, the caller
voice "" is not an id of the catalog yet resolves to nova rather than to
alloy: the empty string is falsy in Python and falls through to the
configured default before the catalog check. -/
theorem resolve_voice_empty_counterexample :
    resolve_voice cfgNova (Option.some "") = "nova" ∧
    OPENAI_VOICE_IDS.contains "" = false ∧
    ("nova" : String) ≠ "alloy" := by
  refine ⟨rfl, rfl, by decide⟩

/-- C4 amended: every non-empty caller voice outside the catalog resolves
to alloy with no error; the empty caller voice behaves exactly like an
absent one; an absent voice resolves to the configured default whenever
that default is an id of the catalog. -/
theorem resolve_voice_amended (cfg : TTSConfig) (v : String)
    (hne : v ≠ "") (hni : OPENAI_VOICE_IDS.contains v = false)
    (hdv : OPENAI_VOICE_IDS.contains cfg.default_voice = true) :
    resolve_voice cfg (Option.some v) = "alloy" ∧
    resolve_voice cfg (Option.some "") = resolve_voice cfg Option.none ∧
    resolve_voice cfg Option.none = cfg.default_voice := by
  refine ⟨?_, rfl, ?_⟩
  · have hni2 : v ∉ OPENAI_VOICE_IDS := by simpa using hni
    simp [resolve_voice, pyStrOr, hne, hni2]
  · have hdv2 : cfg.default_voice ∈ OPENAI_VOICE_IDS := by simpa using hdv
    have hd : cfg.default_voice ≠ "" := by
      intro hh
      rw [hh] at hdv2
      exact absurd hdv2 (by decide)
    simp [resolve_voice, pyStrOr, hd, hdv2]

/-- C4 amended witness: applied to the configuration with default voice
nova and the non-catalog caller voice robot. -/
theorem resolve_voice_amended_witness :
    resolve_voice cfgNova (Option.some "robot") = "alloy" ∧
    resolve_voice cfgNova (Option.some "")
      = resolve_voice cfgNova Option.none ∧
    resolve_voice cfgNova Option.none = cfgNova.default_voice :=
  resolve_voice_amended cfgNova "robot" (by decide) (by decide) (by decide)

/-- C5 counterexample: the caller model "" is not accepted unchanged: it
is falsy in Python and falls through to the hardcoded fallback model id. -/
theorem resolve_model_empty_counterexample :
    resolve_model cfgNova (Option.some "") = "gpt-4o-mini-tts" ∧
    ("gpt-4o-mini-tts" : String) ≠ "" :=
  ⟨rfl, by decide⟩

/-- C5 amended: every non-empty caller model string is accepted unchanged
with no catalog validation; the empty caller model behaves like an absent
one; an absent model uses the configured default when it is set and
non-empty, and the hardcoded gpt-4o-mini-tts when none is configured. -/
theorem resolve_model_amended (cfg cfg2 : TTSConfig) (m : String)
    (hm : m ≠ "") (d : String) (hd : cfg.model = Option.some d)
    (hdne : d ≠ "") (h2 : cfg2.model = Option.none) :
    resolve_model cfg (Option.some m) = m ∧
    resolve_model cfg (Option.some "") = resolve_model cfg Option.none ∧
    resolve_model cfg Option.none = d ∧
    resolve_model cfg2 Option.none = "gpt-4o-mini-tts" := by
  refine ⟨?_, rfl, ?_, ?_⟩
  · simp [resolve_model, pyStrOr, hm]
  · simp [resolve_model, pyStrOr, hd, hdne]
  · simp [resolve_model, pyStrOr, h2]

/-- C5 amended witness: applied to a configuration with configured model
tts-1, one with no configured model, and a caller model outside the
catalog. -/
theorem resolve_model_amended_witness :
    resolve_model cfgWithModel (Option.some "my-custom-model")
      = "my-custom-model" ∧
    resolve_model cfgWithModel (Option.some "")
      = resolve_model cfgWithModel Option.none ∧
    resolve_model cfgWithModel Option.none = "tts-1" ∧
    resolve_model cfgNova Option.none = "gpt-4o-mini-tts" :=
  resolve_model_amended cfgWithModel cfgNova "my-custom-model" (by decide)
    "tts-1" rfl (by decide) rfl

/-- C6: when the write into the allocated temporary file fails at any
point (any partial content, any exception), the allocated path no longer
exists afterward, the originating exception is re-raised unchanged, and
the delete tolerates an already-missing file: unlinking a second time
changes nothing. -/
theorem generate_audio_cleanup_on_failure (fs : FS) (cfg : TTSConfig)
    (text : String) (voice response_format model : Option String)
    (speed : PySpeed) (part : String) (e : PyExn) :
    (generate_audio fs cfg text voice response_format speed model
        (Except.ok (WriteOutcome.fail part e))).2 = Except.error e ∧
    (generate_audio fs cfg text voice response_format speed model
        (Except.ok (WriteOutcome.fail part e))).1.files fs.next = none ∧
    (∀ g : FS, ∀ k i : Nat,
      (unlink (unlink g k) k).files i = (unlink g k).files i) := by
  refine ⟨rfl, ?_, ?_⟩
  · simp [generate_audio, unlink, setFile, allocTemp]
  · intro g k i
    by_cases h : i = k <;> simp [unlink, h]

/-- C7: the provider payload holds exactly the fields input, model, voice
and response_format, never a speed field; the clamped speed appears only
in the extra request metadata as voice_settings.speaking_rate; the
whole-file and the streaming operations both build their request through
the same construction. -/
theorem prepare_request_fields (cfg : TTSConfig) (text : String)
    (voice response_format : Option String) (speed : PySpeed)
    (model : Option String) :
    payloadKeys
        (prepare_request cfg text voice response_format speed model).1
      = ["input", "model", "voice", "response_format"] ∧
    ¬ "speed" ∈ payloadKeys
        (prepare_request cfg text voice response_format speed model).1 ∧
    (prepare_request cfg text voice response_format speed model).2
      = [("voice_settings",
          [("speaking_rate", clamp_speaking_rate cfg speed)])] ∧
    generate_audio_request cfg text voice response_format speed model
      = prepare_request cfg text voice response_format speed model ∧
    generate_audio_stream_request cfg text voice response_format speed model
      = prepare_request cfg text voice response_format speed model := by
  refine ⟨rfl, ?_, rfl, rfl, rfl⟩
  intro h
  have h2 : "speed" ∈ ["input", "model", "voice", "response_format"] := h
  exact absurd h2 (by decide)

/-- C8: every request whose parsed body lacks the input key (the absent
body included) is answered with status 400 and exactly the error body
Missing \x27input\x27 in request body. -/
theorem missing_input_returns_400 (cfg : TTSConfig)
    (gen : Except PyExn String) (data : Option Body)
    (h : hasInput data = false) :
    text_to_speech cfg gen data
      = TTSResp.errJson 400 MISSING_INPUT_ERROR := by
  unfold text_to_speech
  rw [h]
  simp

/-- C8 witness: applied to a one-field body that carries voice but no
input. -/
theorem missing_input_returns_400_witness :
    text_to_speech cfgNova (Except.ok "tmp.mp3")
        (Option.some [("voice", PyVal.str "alloy")])
      = TTSResp.errJson 400 MISSING_INPUT_ERROR :=
  missing_input_returns_400 cfgNova (Except.ok "tmp.mp3")
    (Option.some [("voice", PyVal.str "alloy")]) (by decide)

/-- C9 counterexample: the interleaving in which run_loop publishes the
loop object and is preempted before calling run_forever is a valid
execution where _start_loop returns while the loop is not yet running: the
polling loop checks only that the loop object exists. -/
theorem start_loop_returns_before_running :
    (runBridge initBridge [BridgeEv.createLoop, BridgeEv.startReturn]).map
        (fun s => (s.returned, s.running)) = some (true, false) := by
  decide

/-- C9 amended: the start routine never returns before the loop object is
created and published (that is the whole readiness condition it polls);
it may return before the loop is running, but no task submitted after it
returns is ever lost: along every valid execution, submitted tasks are
exactly those still queued plus those executed by the running loop. -/
theorem start_loop_amended (tr : List BridgeEv) (s : BridgeState)
    (h : runBridge initBridge tr = some s) (hret : s.returned = true) :
    s.created = true ∧ s.submitted = s.queued + s.executed := by
  have hinv := runBridge_inv tr initBridge s ⟨fun hh => hh, rfl⟩ h
  exact ⟨hinv.1 hret, hinv.2⟩

/-- C9 amended witness: the execution that creates the loop, returns from
start, submits a task, starts run_forever and drains the queue. -/
theorem start_loop_amended_witness :
    (true = true ∧ (1 : Nat) = 0 + 1) :=
  start_loop_amended
    [BridgeEv.createLoop, BridgeEv.startReturn, BridgeEv.submitTask,
     BridgeEv.runForever, BridgeEv.processTasks]
    ⟨true, true, true, 1, 0, 1⟩ (by decide) (by decide)

/-- C10: the 400 rejection is produced exactly when the parsed body is
absent, the empty object, or lacks the key input; in particular a body
binding input to the empty string is not rejected and proceeds to
synthesis, yielding the attachment built from the synthesized path. -/
theorem reject_iff_missing_input (cfg : TTSConfig)
    (gen : Except PyExn String) (data : Option Body) :
    (text_to_speech cfg gen data
        = TTSResp.errJson 400 MISSING_INPUT_ERROR ↔
      data = Option.none ∨ data = Option.some [] ∨
        (∃ d, data = Option.some d ∧
          lookupKey d "input" = Option.none)) ∧
    (∀ path : String,
      text_to_speech cfg (Except.ok path)
          (Option.some [("input", PyVal.str "")])
        = TTSResp.fileAttachment (mimeFor cfg.default_format)
            ("speech." ++ cfg.default_format) path) := by
  constructor
  · constructor
    · intro h
      cases data with
      | none => exact Or.inl rfl
      | some d =>
        by_cases hni : lookupKey d "input" = Option.none
        · exact Or.inr (Or.inr ⟨d, rfl, hni⟩)
        · exfalso
          have hdne : d ≠ [] := by
            intro hdd
            rw [hdd] at hni
            exact hni rfl
          have h1 : d.isEmpty = false := by
            cases d with
            | nil => exact absurd rfl hdne
            | cons a as => rfl
          have h2 : (lookupKey d "input").isSome = true := by
            cases hl : lookupKey d "input" with
            | none => exact absurd hl hni
            | some v => rfl
          unfold text_to_speech at h
          rw [show (bodyFalsy (Option.some d) || !hasInput (Option.some d))
              = false from by simp [bodyFalsy, hasInput, h1, h2]] at h
          rw [if_neg (show ¬(false = true) from by decide)] at h
          rw [show (Option.some d).getD ([] : Body) = d from rfl] at h
          cases hq : pyFloat (body_speed cfg d) with
          | none =>
            rw [hq] at h
            have h5 : TTSResp.errJson 500 "An internal server error occurred."
                = TTSResp.errJson 400 MISSING_INPUT_ERROR := h
            exact absurd (TTSResp.errJson.inj h5).1 (by decide)
          | some q =>
            rw [hq] at h
            cases gen with
            | ok path => exact TTSResp.noConfusion h
            | error ex =>
              cases ex with
              | timeout =>
                have h5 : TTSResp.errJson 500
                    "An internal server error occurred."
                    = TTSResp.errJson 400 MISSING_INPUT_ERROR := h
                exact absurd (TTSResp.errJson.inj h5).1 (by decide)
              | openai code msg => exact TTSResp.noConfusion h
              | valueError msg =>
                have h5 : TTSResp.errJson 500
                    "An internal server error occurred."
                    = TTSResp.errJson 400 MISSING_INPUT_ERROR := h
                exact absurd (TTSResp.errJson.inj h5).1 (by decide)
              | other msg =>
                have h5 : TTSResp.errJson 500
                    "An internal server error occurred."
                    = TTSResp.errJson 400 MISSING_INPUT_ERROR := h
                exact absurd (TTSResp.errJson.inj h5).1 (by decide)
    · intro hrhs
      rcases hrhs with rfl | rfl | ⟨d, rfl, hni⟩
      · rfl
      · rfl
      · unfold text_to_speech
        simp [bodyFalsy, hasInput, hni]
  · intro path
    rfl

end NagaTTS
